import Mathlib

/-!
Verification of the activity-badge generator (`generate_commit_days.py`).

The development shallowly embeds the pure core of the script:

* `fetch_contribution_days` — the aggregation loop over the weeks of
  contribution days (the network fetch and JSON decoding are outside the
  embedded core; the loop consumes the already-decoded day records).
  The two clock reads (`datetime.now(timezone.utc).date()`) become the
  explicit `today_utc` argument.
* `calculate_days_elapsed` — the elapsed-day computation; Python's
  `date` subtraction is embedded through the proleptic Gregorian
  ordinal `toOrdinal` (the value of Python's `date.toordinal`).
* `generate_svg` — the SVG renderer, with Python's float arithmetic
  embedded over `ℚ`, `"%.1f"` style formatting as `fmt1`, `int()`
  truncation as `pyInt` and `"{:,}"` grouping as `commaFmt`; the SVG
  template text is kept verbatim as string chunks.
-/

/-- A calendar date as Python's `datetime.date` carries it. -/
structure PyDate where
  year : Nat
  month : Nat
  day : Nat
  deriving DecidableEq, Repr

/-- Python's `<` on `datetime.date` values: lexicographic on
`(year, month, day)`. -/
def PyDate.ltb (a b : PyDate) : Bool :=
  decide (a.year < b.year ∨ (a.year = b.year ∧
    (a.month < b.month ∨ (a.month = b.month ∧ a.day < b.day))))

/-- The Gregorian leap-year rule, as `calendar.isleap` and the inline
condition on line 93 of the source compute it. -/
def isLeap (y : Nat) : Bool :=
  decide (y % 4 = 0 ∧ (y % 100 ≠ 0 ∨ y % 400 = 0))

/-- Length of a month in the proleptic Gregorian calendar. -/
def daysInMonth (y m : Nat) : Nat :=
  if m = 2 then (if isLeap y then 29 else 28)
  else if m = 4 ∨ m = 6 ∨ m = 9 ∨ m = 11 then 30
  else 31

/-- Days in year `y` strictly before month `m`. -/
def daysBeforeMonth (y m : Nat) : Nat :=
  ∑ i ∈ Finset.range (m - 1), daysInMonth y (i + 1)

/-- Day-of-year ordinal: Jan 1 is day 1. -/
def dayOfYear (d : PyDate) : Nat :=
  daysBeforeMonth d.year d.month + d.day

/-- Number of days in year `y` (sum of its twelve month lengths). -/
def daysInYear (y : Nat) : Nat :=
  ∑ i ∈ Finset.range 12, daysInMonth y (i + 1)

/-- Days strictly before year `y` since the proleptic epoch, as in
Python's `date.toordinal`. -/
def daysBeforeYear (y : Nat) : Nat :=
  365 * (y - 1) + (y - 1) / 4 + (y - 1) / 400 - (y - 1) / 100

/-- Python's `date.toordinal`: day number in the proleptic Gregorian
calendar, with 0001-01-01 as ordinal 1.  Date subtraction
`(a - b).days` is `toOrdinal a - toOrdinal b`. -/
def toOrdinal (d : PyDate) : Nat :=
  daysBeforeYear d.year + daysBeforeMonth d.year d.month + d.day

/-- Predicate: `d` is a well-formed calendar date. -/
def PyDate.Valid (d : PyDate) : Prop :=
  1 ≤ d.month ∧ d.month ≤ 12 ∧ 1 ≤ d.day ∧ d.day ≤ daysInMonth d.year d.month

instance (d : PyDate) : Decidable d.Valid := by
  unfold PyDate.Valid; infer_instance

/-- The function `calculate_days_elapsed` (source lines 83–95), with the clock read
passed in as `today`.  In the same-year branch the source returns
`(today - date(year, 1, 1)).days + 1`, embedded via `toOrdinal`. -/
def calculate_days_elapsed (today : PyDate) (year : Nat) : Nat :=
  if today.year = year then
    (toOrdinal today - toOrdinal ⟨year, 1, 1⟩) + 1
  else if today.year > year then
    (if year % 4 = 0 ∧ (year % 100 ≠ 0 ∨ year % 400 = 0) then 366 else 365)
  else 0

/-- One decoded `contributionDays` entry of the GraphQL payload.
`contributionLevel` is `none` when the key is absent, matching
`day.get("contributionLevel", "NONE")`'s default. -/
structure DayRecord where
  date : PyDate
  contributionCount : Int
  contributionLevel : Option String
  deriving DecidableEq, Repr

/-- The lookup `day.get("contributionLevel", "NONE")`. -/
def levelOf (r : DayRecord) : String :=
  r.contributionLevel.getD ("NONE")

/-- Body of the aggregation loop (source lines 68–79) for one day:
skip future days, count the day as active iff its level is not the
`"NONE"` sentinel, and add its count to the running total. -/
def step (today_utc : PyDate) (acc : Nat × Int) (day : DayRecord) : Nat × Int :=
  if PyDate.ltb today_utc day.date then acc
  else
    ((if levelOf day != "NONE" then acc.1 + 1 else acc.1),
      acc.2 + day.contributionCount)

/-- The aggregation core of `fetch_contribution_days` (source lines
64–81): the double loop over `weeks` and their `contributionDays`,
returning `(days_with_activity, total_contributions)`. -/
def fetch_contribution_days (weeks : List (List DayRecord))
    (today_utc : PyDate) : Nat × Int :=
  weeks.foldl (fun acc week => week.foldl (step today_utc) acc) (0, 0)

/-- A record survives the future-date cutoff. -/
def keep (t : PyDate) (r : DayRecord) : Bool :=
  ! PyDate.ltb t r.date

/-- The code's active-day test: level (defaulted) differs from the
`"NONE"` sentinel. -/
def isActiveRec (r : DayRecord) : Bool :=
  levelOf r != "NONE"

/-- Filter/length form of the first aggregate. -/
def activeCount (l : List DayRecord) (t : PyDate) : Nat :=
  (l.filter (fun r => keep t r && isActiveRec r)).length

/-- Filter/sum form of the second aggregate. -/
def totalSum (l : List DayRecord) (t : PyDate) : Int :=
  ((l.filter (fun r => keep t r)).map (fun r => r.contributionCount)).sum

/-- The quantity `consistency` (source line 101), with Python's float
arithmetic embedded over the exact rationals. -/
def consistencyQ (days_with_activity days_elapsed : Nat) : ℚ :=
  if 0 < days_elapsed then
    ((days_with_activity : ℚ) / (days_elapsed : ℚ)) * 100
  else 0

/-- Accent-color selection (source lines 104–109). -/
def accent_color (consistency : ℚ) : String :=
  if 85 ≤ consistency then "#3fb950"
  else if 60 ≤ consistency then "#d29922"
  else "#f85149"

/-- The progress-ring radius (source line 112). -/
def radius : Nat := 54

/-- The value `circumference = 2 * 3.14159 * radius` (source line 113). -/
def circumferenceQ : ℚ := 2 * (314159 / 100000) * (radius : ℚ)

/-- The value `progress = (consistency / 100) * circumference`
(source line 114). -/
def progressQ (consistency : ℚ) : ℚ := (consistency / 100) * circumferenceQ

/-- Round to the nearest integer with ties to even, the rounding applied
by float formatting. -/
def roundHalfEvenQ (q : ℚ) : ℤ :=
  let f := ⌊q⌋
  if q - (f : ℚ) < 1 / 2 then f
  else if (1 / 2 : ℚ) < q - (f : ℚ) then f + 1
  else if f % 2 = 0 then f else f + 1

/-- Python `f"{x:.1f}"` formatting on the exact value: one digit after
the decimal point. -/
def fmt1 (q : ℚ) : String :=
  let n := (roundHalfEvenQ (10 * |q|)).toNat
  (if q < 0 then "-" else "") ++ Nat.repr (n / 10) ++ "." ++ Nat.repr (n % 10)

/-- Python `int()` applied to a numeric value: truncation toward zero. -/
def pyInt (q : ℚ) : ℤ := if 0 ≤ q then ⌊q⌋ else ⌈q⌉

/-- Decimal digit as a character. -/
def digitChar (d : Nat) : Char := Char.ofNat (48 + d)

/-- Decimal digits of the second argument, least significant first; the
first argument is recursion fuel and any value at least the digit count
is enough. -/
def natDigitsRevAux : Nat → Nat → List Char
  | _, 0 => []
  | 0, _ + 1 => []
  | fuel + 1, n + 1 =>
    digitChar ((n + 1) % 10) :: natDigitsRevAux fuel ((n + 1) / 10)

/-- Decimal digits of `n`, least significant first (empty for 0). -/
def natDigitsRev (n : Nat) : List Char := natDigitsRevAux n n

/-- Insert a comma after every third character (applied to a reversed
digit list, so the groups count from the least significant digit). -/
def groupRev : List Char → List Char
  | a :: b :: c :: d :: rest => a :: b :: c :: ',' :: groupRev (d :: rest)
  | l => l

/-- Python `f"{n:,}"` formatting: decimal rendering with thousands
separators. -/
def commaFmt (n : Int) : String :=
  let body :=
    if n.natAbs = 0 then "0"
    else String.mk ((groupRev (natDigitsRev n.natAbs)).reverse)
  (if n < 0 then "-" else "") ++ body

/-- SVG template text before the first interpolated value. -/
def svgChunk1 : String := "<svg xmlns=\"http://www.w3.org/2000/svg\" width=\"450\" height=\"180\" viewBox=\"0 0 450 180\">\n  <defs>\n    <linearGradient id=\"bgGrad\" x1=\"0%\" y1=\"0%\" x2=\"100%\" y2=\"100%\">\n      <stop offset=\"0%\" style=\"stop-color:#0d1117;stop-opacity:1\" />\n      <stop offset=\"100%\" style=\"stop-color:#161b22;stop-opacity:1\" />\n    </linearGradient>\n    <filter id=\"shadow\" x=\"-20%\" y=\"-20%\" width=\"140%\" height=\"140%\">\n      <feGaussianBlur in=\"SourceAlpha\" stdDeviation=\"3\" />\n      <feOffset dx=\"0\" dy=\"2\" result=\"offsetblur\" />\n      <feComponentTransfer>\n        <feFuncA type=\"linear\" slope=\"0.5\" />\n      </feComponentTransfer>\n      <feMerge>\n        <feMergeNode />\n        <feMergeNode in=\"SourceGraphic\" />\n      </feMerge>\n    </filter>\n  </defs>\n\n  <!-- Main Card -->\n  <rect width=\"450\" height=\"180\" rx=\"16\" fill=\"url(#bgGrad)\" stroke=\"#30363d\" stroke-width=\"1.5\"/>\n\n  <!-- Progress Circle Section -->\n  <g transform=\"translate(90, 90)\">\n    <!-- Background Circle -->\n    <circle cx=\"0\" cy=\"0\" r=\""

/-- SVG template text between the two radius interpolations. -/
def svgChunk2 : String := "\" fill=\"none\" stroke=\"#21262d\" stroke-width=\"10\"/>\n    <!-- Progress Circle -->\n    <circle cx=\"0\" cy=\"0\" r=\""

/-- SVG template text before the accent color. -/
def svgChunk3 : String := "\" fill=\"none\" stroke=\""

/-- SVG template text before the dasharray value. -/
def svgChunk4 : String := "\" stroke-width=\"10\"\n            stroke-dasharray=\""

/-- SVG template text before the percentage label. -/
def svgChunk5 : String := "\" stroke-linecap=\"round\" transform=\"rotate(-90)\"\n            style=\"transition: stroke-dasharray 0.5s ease;\"/>\n    \n    <!-- Central Text -->\n    <text x=\"0\" y=\"-5\" text-anchor=\"middle\" fill=\"#ffffff\" font-family=\"Segoe UI, -apple-system, sans-serif\" font-size=\"32\" font-weight=\"800\" filter=\"url(#shadow)\">"

/-- SVG template text before the year heading. -/
def svgChunk6 : String := "</text>\n    <text x=\"0\" y=\"18\" text-anchor=\"middle\" fill=\"#8b949e\" font-family=\"Segoe UI, -apple-system, sans-serif\" font-size=\"12\" font-weight=\"500\">CONSISTENCY</text>\n  </g>\n\n  <!-- Statistics Section -->\n  <g transform=\"translate(200, 45)\">\n    <text x=\"0\" y=\"0\" fill=\"#58a6ff\" font-family=\"Segoe UI, -apple-system, sans-serif\" font-size=\"16\" font-weight=\"700\">📅 "

/-- SVG template text before the active-days line. -/
def svgChunk7 : String := " Activity Streak</text>\n    \n    <g transform=\"translate(0, 35)\">\n      <text x=\"0\" y=\"0\" fill=\"#8b949e\" font-family=\"Segoe UI, -apple-system, sans-serif\" font-size=\"13\">Active Days (Visual)</text>\n      <text x=\"0\" y=\"22\" fill=\"#ffffff\" font-family=\"Segoe UI, -apple-system, sans-serif\" font-size=\"18\" font-weight=\"600\">"

/-- SVG template text before the total-contributions line. -/
def svgChunk8 : String := "</text>\n    </g>\n    \n    <g transform=\"translate(0, 80)\">\n      <text x=\"0\" y=\"0\" fill=\"#8b949e\" font-family=\"Segoe UI, -apple-system, sans-serif\" font-size=\"13\">Total Contributions</text>\n      <text x=\"0\" y=\"22\" fill=\"#ffffff\" font-family=\"Segoe UI, -apple-system, sans-serif\" font-size=\"18\" font-weight=\"600\">"

/-- SVG template text before the footer timestamp. -/
def svgChunk9 : String := "</text>\n    </g>\n  </g>\n  \n  <!-- Footer -->\n  <text x=\"430\" y=\"165\" text-anchor=\"end\" fill=\"#484f58\" font-family=\"Segoe UI, -apple-system, sans-serif\" font-size=\"10\" font-style=\"italic\">Last updated: "

/-- SVG template text after the footer timestamp. -/
def svgChunk10 : String := "</svg>"

/-- The renderer `generate_svg` (source lines 97–173).  The clock read
for `last_updated` (line 116) is passed in as an explicit argument. -/
def generate_svg (days_with_activity : Nat) (total_contributions : Int)
    (days_elapsed : Nat) (year : Nat) (last_updated : String) : String :=
  let consistency := consistencyQ days_with_activity days_elapsed
  let accent := accent_color consistency
  let progress := progressQ consistency
  svgChunk1 ++ Nat.repr radius ++ svgChunk2 ++ Nat.repr radius ++ svgChunk3 ++
    accent ++ svgChunk4 ++ (fmt1 progress ++ " " ++ fmt1 circumferenceQ) ++
    svgChunk5 ++ (Int.repr (pyInt consistency) ++ "%") ++ svgChunk6 ++
    Nat.repr year ++ svgChunk7 ++
    (Nat.repr days_with_activity ++ " / " ++ Nat.repr days_elapsed) ++
    svgChunk8 ++ commaFmt total_contributions ++ svgChunk9 ++ last_updated ++
    svgChunk10

/-- Modelled from the spec: the four-tier classification of section 4.1,
which is absent from the source (the script never computes a tier
label). -/
def specTier (c : ℚ) : String :=
  if 80 ≤ c then "excellent"
  else if 60 ≤ c then "good"
  else if 40 ≤ c then "moderate"
  else "needs-work"

/-- Modelled from the spec: the tier-to-accent-color mapping of section
4.2 ("excellent" to green, "good" to gold). -/
def specTierColor (t : String) : String :=
  if t = "excellent" then "#3fb950"
  else if t = "good" then "#d29922"
  else "#f85149"

/-- Modelled from the spec: the claimed active-day rule of C4, `count >
0` OR a present categorical level differing from the sentinel. -/
def claimActiveSpec (r : DayRecord) : Bool :=
  decide (0 < r.contributionCount) ||
    (match r.contributionLevel with
     | some l => l != "NONE"
     | none => false)

/-- Modelled from the spec: rounding to the nearest integer, half-up. -/
def specRoundHalfUp (q : ℚ) : ℤ := ⌊q + 1 / 2⌋


/-- Comma-free decimal rendering of an integer. -/
def plainDecimal (n : Int) : String :=
  (if n < 0 then "-" else "") ++
    (if n.natAbs = 0 then "0"
     else String.mk ((natDigitsRev n.natAbs).reverse))

lemma foldl_step_eq (t : PyDate) (l : List DayRecord) :
    ∀ acc : Nat × Int,
      l.foldl (step t) acc = (acc.1 + activeCount l t, acc.2 + totalSum l t) := by
  induction l with
  | nil => intro acc; simp [activeCount, totalSum]
  | cons r l ih =>
    intro acc
    rw [List.foldl_cons, ih]
    by_cases h : PyDate.ltb t r.date
    · simp [step, h, activeCount, totalSum, keep, List.filter_cons]
    · by_cases ha : levelOf r = "NONE"
      · simp [step, h, ha, activeCount, totalSum, keep, isActiveRec,
          List.filter_cons, List.sum_cons, bne_iff_ne]
        omega
      · simp [step, h, ha, activeCount, totalSum, keep, isActiveRec,
          List.filter_cons, List.sum_cons, bne_iff_ne]
        omega

lemma fetch_eq_spec (weeks : List (List DayRecord)) (t : PyDate) :
    fetch_contribution_days weeks t =
      (activeCount weeks.flatten t, totalSum weeks.flatten t) := by
  have hjoin : ∀ (W : List (List DayRecord)) (acc : Nat × Int),
      W.foldl (fun a w => w.foldl (step t) a) acc = (W.flatten).foldl (step t) acc := by
    intro W
    induction W with
    | nil => intro acc; simp
    | cons w W ih => intro acc; simp [List.foldl_append, ih]
  rw [fetch_contribution_days, hjoin, foldl_step_eq]
  simp

example :
    fetch_contribution_days
      [[⟨⟨2026, 1, 1⟩, 3, some "FIRST_QUARTILE"⟩,
        ⟨⟨2026, 1, 2⟩, 5, some "NONE"⟩],
       [⟨⟨2026, 1, 3⟩, 7, none⟩,
        ⟨⟨2026, 2, 1⟩, 9, some "SECOND_QUARTILE"⟩]]
      ⟨2026, 1, 5⟩ = (1, 15) := by decide

example : calculate_days_elapsed ⟨2026, 3, 2⟩ 2026 = 61 := by decide

example : calculate_days_elapsed ⟨2029, 1, 1⟩ 2028 = 366 := by decide

example : calculate_days_elapsed ⟨2101, 1, 1⟩ 2100 = 365 := by decide

example : calculate_days_elapsed ⟨2025, 12, 31⟩ 2026 = 0 := by decide

example : accent_color 80 = "#d29922" := by
  norm_num [accent_color]

example : pyInt (consistencyQ 2 3) = 66 := by
  norm_num [pyInt, consistencyQ]

example : specRoundHalfUp (consistencyQ 2 3) = 67 := by
  norm_num [specRoundHalfUp, consistencyQ]

example : commaFmt 1234567 = "1,234,567" := by decide

example : commaFmt 0 = "0" := by decide

example : commaFmt (-1234) = "-1,234" := by decide

lemma daysBeforeMonth_succ (y m : Nat) (h : 1 ≤ m) :
    daysBeforeMonth y (m + 1) = daysBeforeMonth y m + daysInMonth y m := by
  unfold daysBeforeMonth
  have h1 : m + 1 - 1 = (m - 1) + 1 := by omega
  have h2 : m - 1 + 1 = m := by omega
  rw [h1, Finset.sum_range_succ, h2]

lemma daysBeforeMonth_mono (y : Nat) {m1 m2 : Nat} (h : m1 ≤ m2) :
    daysBeforeMonth y m1 ≤ daysBeforeMonth y m2 := by
  unfold daysBeforeMonth
  exact Finset.sum_le_sum_of_subset (Finset.range_subset.mpr (by omega))

lemma daysInYear_eq_daysBeforeMonth (y : Nat) :
    daysInYear y = daysBeforeMonth y 13 := rfl

lemma dayOfYear_pos {d : PyDate} (hv : d.Valid) : 1 ≤ dayOfYear d := by
  obtain ⟨_, _, h3, _⟩ := hv
  unfold dayOfYear
  omega

lemma dayOfYear_le_daysInYear {d : PyDate} (hv : d.Valid) :
    dayOfYear d ≤ daysInYear d.year := by
  obtain ⟨h1, h2, h3, h4⟩ := hv
  have hs := daysBeforeMonth_succ d.year d.month h1
  have hm : daysBeforeMonth d.year (d.month + 1) ≤ daysBeforeMonth d.year 13 :=
    daysBeforeMonth_mono _ (by omega)
  rw [daysInYear_eq_daysBeforeMonth]
  unfold dayOfYear
  omega

lemma dayOfYear_le {d1 d2 : PyDate} (hv1 : d1.Valid) (hv2 : d2.Valid)
    (hy : d1.year = d2.year)
    (h : d1.month < d2.month ∨ (d1.month = d2.month ∧ d1.day ≤ d2.day)) :
    dayOfYear d1 ≤ dayOfYear d2 := by
  obtain ⟨a1, a2, a3, a4⟩ := hv1
  obtain ⟨b1, b2, b3, b4⟩ := hv2
  unfold dayOfYear
  rcases h with h | ⟨hm, hd⟩
  · have hs := daysBeforeMonth_succ d1.year d1.month a1
    have hmono : daysBeforeMonth d1.year (d1.month + 1) ≤ daysBeforeMonth d1.year d2.month :=
      daysBeforeMonth_mono _ (by omega)
    rw [hy] at hs hmono a4 ⊢
    omega
  · rw [hy, hm]
    omega

lemma dayOfYear_lt {d1 d2 : PyDate} (hv1 : d1.Valid) (hv2 : d2.Valid)
    (hy : d1.year = d2.year)
    (h : d1.month < d2.month ∨ (d1.month = d2.month ∧ d1.day < d2.day)) :
    dayOfYear d1 < dayOfYear d2 := by
  obtain ⟨a1, a2, a3, a4⟩ := hv1
  obtain ⟨b1, b2, b3, b4⟩ := hv2
  unfold dayOfYear
  rcases h with h | ⟨hm, hd⟩
  · have hs := daysBeforeMonth_succ d1.year d1.month a1
    have hmono : daysBeforeMonth d1.year (d1.month + 1) ≤ daysBeforeMonth d1.year d2.month :=
      daysBeforeMonth_mono _ (by omega)
    rw [hy] at hs hmono a4 ⊢
    omega
  · rw [hy, hm]
    omega

lemma dayOfYear_inj {d1 d2 : PyDate} (hv1 : d1.Valid) (hv2 : d2.Valid)
    (hy : d1.year = d2.year) (h : dayOfYear d1 = dayOfYear d2) : d1 = d2 := by
  rcases Nat.lt_trichotomy d1.month d2.month with hm | hm | hm
  · exact absurd h (Nat.ne_of_lt (dayOfYear_lt hv1 hv2 hy (Or.inl hm)))
  · rcases Nat.lt_trichotomy d1.day d2.day with hd | hd | hd
    · exact absurd h (Nat.ne_of_lt (dayOfYear_lt hv1 hv2 hy (Or.inr ⟨hm, hd⟩)))
    · cases d1; cases d2
      simp_all
    · exact absurd h.symm
        (Nat.ne_of_lt (dayOfYear_lt hv2 hv1 hy.symm (Or.inr ⟨hm.symm, hd⟩)))
  · exact absurd h.symm
      (Nat.ne_of_lt (dayOfYear_lt hv2 hv1 hy.symm (Or.inl hm)))

lemma elapsed_same_year {asOf : PyDate} {year : Nat} (hv : asOf.Valid)
    (h : asOf.year = year) :
    calculate_days_elapsed asOf year = dayOfYear asOf := by
  obtain ⟨_, _, h3, _⟩ := hv
  subst h
  unfold calculate_days_elapsed
  rw [if_pos rfl]
  unfold toOrdinal dayOfYear
  dsimp only
  have h0 : daysBeforeMonth asOf.year 1 = 0 := by
    unfold daysBeforeMonth; simp
  rw [h0]
  omega

lemma daysInYear_leap {y : Nat} (h : isLeap y = true) : daysInYear y = 366 := by
  unfold daysInYear
  simp [Finset.sum_range_succ, daysInMonth, h]

lemma daysInYear_nonleap {y : Nat} (h : isLeap y = false) : daysInYear y = 365 := by
  unfold daysInYear
  simp [Finset.sum_range_succ, daysInMonth, h]

lemma elapsed_future_year {asOf : PyDate} {year : Nat} (h : asOf.year > year) :
    calculate_days_elapsed asOf year = daysInYear year := by
  unfold calculate_days_elapsed
  rw [if_neg (by omega), if_pos h]
  by_cases hl : isLeap year
  · rw [if_pos (of_decide_eq_true hl), daysInYear_leap hl]
  · have hl' : isLeap year = false := by
      revert hl; cases isLeap year <;> simp
    rw [daysInYear_nonleap hl', if_neg (of_decide_eq_false hl')]

lemma length_le_of_doy_bounds (l : List DayRecord) (N : Nat)
    (hb : ∀ r ∈ l, 1 ≤ dayOfYear r.date ∧ dayOfYear r.date ≤ N)
    (hinj : ∀ r ∈ l, ∀ s ∈ l,
      dayOfYear r.date = dayOfYear s.date → r.date = s.date)
    (hnd : (l.map (fun r => r.date)).Nodup) :
    l.length ≤ N := by
  classical
  have hndM : ((l.map (fun r => r.date)).map dayOfYear).Nodup := by
    apply List.Nodup.map_on ?_ hnd
    intro x hx y hy hxy
    obtain ⟨r, hr, rfl⟩ := List.mem_map.mp hx
    obtain ⟨s, hs, rfl⟩ := List.mem_map.mp hy
    exact hinj r hr s hs hxy
  have hsub : ((l.map (fun r => r.date)).map dayOfYear).toFinset ⊆ Finset.Icc 1 N := by
    intro x hx
    rw [List.mem_toFinset] at hx
    simp only [List.map_map, List.mem_map, Function.comp] at hx
    obtain ⟨r, hr, rfl⟩ := hx
    exact Finset.mem_Icc.mpr (hb r hr)
  have hcard := Finset.card_le_card hsub
  rw [List.toFinset_card_of_nodup hndM, Nat.card_Icc] at hcard
  simp only [List.length_map] at hcard
  omega

lemma digitChar_ne_comma {d : Nat} (h : d < 10) : digitChar d ≠ ',' := by
  interval_cases d <;> decide

lemma natDigitsRevAux_no_comma :
    ∀ (fuel n : Nat), ∀ c ∈ natDigitsRevAux fuel n, c ≠ ',' := by
  intro fuel
  induction fuel with
  | zero =>
    intro n c hc
    cases n <;> simp [natDigitsRevAux] at hc
  | succ f ih =>
    intro n c hc
    cases n with
    | zero => simp [natDigitsRevAux] at hc
    | succ m =>
      simp only [natDigitsRevAux, List.mem_cons] at hc
      rcases hc with h | h
      · subst h
        exact digitChar_ne_comma (Nat.mod_lt _ (by omega))
      · exact ih _ c h

lemma groupRev_filter_aux :
    ∀ (n : Nat) (l : List Char), l.length ≤ n → (∀ c ∈ l, c ≠ ',') →
      (groupRev l).filter (fun c => c != ',') = l := by
  intro n
  induction n with
  | zero =>
    intro l hl _
    rcases l with _ | ⟨a, l⟩
    · rfl
    · simp at hl
  | succ n ih =>
    intro l hl hc
    rcases l with _ | ⟨a, _ | ⟨b, _ | ⟨c, _ | ⟨d, rest⟩⟩⟩⟩
    · rfl
    · have ha := hc a (by simp)
      simp [groupRev, List.filter_cons, ha]
    · have ha := hc a (by simp)
      have hb := hc b (by simp)
      simp [groupRev, List.filter_cons, ha, hb]
    · have ha := hc a (by simp)
      have hb := hc b (by simp)
      have hcc := hc c (by simp)
      simp [groupRev, List.filter_cons, ha, hb, hcc]
    · have ha := hc a (by simp)
      have hb := hc b (by simp)
      have hcc := hc c (by simp)
      have hrest : ∀ x ∈ d :: rest, x ≠ ',' := fun x hx => hc x (by simp [hx])
      have hlen : (d :: rest).length ≤ n := by
        simp at hl ⊢
        omega
      have hgr : groupRev (a :: b :: c :: d :: rest)
          = a :: b :: c :: ',' :: groupRev (d :: rest) := rfl
      rw [hgr]
      simp [List.filter_cons, ha, hb, hcc, ih _ hlen hrest]

lemma groupRev_filter (l : List Char) (h : ∀ c ∈ l, c ≠ ',') :
    (groupRev l).filter (fun c => c != ',') = l :=
  groupRev_filter_aux l.length l le_rfl h

lemma commaFmt_strip (n : Int) :
    (commaFmt n).data.filter (fun c => c != ',') = (plainDecimal n).data := by
  unfold commaFmt plainDecimal
  by_cases h0 : n.natAbs = 0
  · by_cases hn : n < 0 <;> simp [h0, hn, String.data_append]
  · have hds : (groupRev (natDigitsRev n.natAbs)).filter (fun c => c != ',')
        = natDigitsRev n.natAbs :=
      groupRev_filter _ (natDigitsRevAux_no_comma _ _)
    by_cases hn : n < 0 <;>
      simp [h0, hn, String.data_append, List.filter_reverse, hds]

lemma natRepr_length_lt_ten : ∀ d : Nat, d < 10 → (Nat.repr d).length = 1 := by
  decide

lemma fmt1_decomp (q : ℚ) :
    fmt1 q = ((if q < 0 then "-" else "")
        ++ Nat.repr ((roundHalfEvenQ (10 * |q|)).toNat / 10))
      ++ "." ++ Nat.repr ((roundHalfEvenQ (10 * |q|)).toNat % 10) := rfl

/-- C1 counterexample: at `consistencyPercent = 80` the renderer picks
the gold accent `#d29922`, while the spec's four-tier rule (closed at
80) puts 80 in the top tier, whose accent is green `#3fb950`. -/
theorem accent_color_at_80_not_green :
    accent_color 80 = "#d29922" ∧ specTierColor (specTier 80) = "#3fb950" ∧
    accent_color 80 ≠ specTierColor (specTier 80) := by
  have h1 : accent_color 80 = "#d29922" := by norm_num [accent_color]
  have h2 : specTierColor (specTier 80) = "#3fb950" := by
    norm_num [specTier, specTierColor]
  refine ⟨h1, h2, ?_⟩
  rw [h1, h2]
  decide

/-- C1 (amended): the renderer's accent color follows a three-tier rule
with boundaries closed at the lower bound: consistency at least 85 is
green, at least 60 but below 85 is gold, below 60 is red; in particular
80 falls in the gold tier, not the top one. -/
theorem accent_color_three_tier (c : ℚ) :
    (85 ≤ c → accent_color c = "#3fb950") ∧
    (60 ≤ c → c < 85 → accent_color c = "#d29922") ∧
    (c < 60 → accent_color c = "#f85149") := by
  unfold accent_color
  refine ⟨fun h => if_pos h, fun h1 h2 => ?_, fun h => ?_⟩
  · rw [if_neg (by linarith), if_pos h1]
  · rw [if_neg (by linarith), if_neg (by linarith)]

theorem accent_color_three_tier_witness :
    ((85:ℚ) ≤ 85 ∧ accent_color 85 = "#3fb950") ∧
    ((60:ℚ) ≤ 80 ∧ (80:ℚ) < 85 ∧ accent_color 80 = "#d29922") ∧
    ((59:ℚ) < 60 ∧ accent_color 59 = "#f85149") :=
  ⟨⟨by decide, (accent_color_three_tier 85).1 (by decide)⟩,
   ⟨by decide, by decide, (accent_color_three_tier 80).2.1 (by decide) (by decide)⟩,
   ⟨by decide, (accent_color_three_tier 59).2.2 (by decide)⟩⟩

/-- C2: for a valid as-of date, the elapsed-day count is the ordinal
difference from Jan 1 plus one (equivalently the day-of-year ordinal)
in the same year, the full Gregorian year length (366 exactly under the
leap rule, else 365) for later as-of years, and 0 for earlier ones. -/
theorem calculate_days_elapsed_spec (asOf : PyDate) (year : Nat)
    (hv : asOf.Valid) :
    (asOf.year = year →
      calculate_days_elapsed asOf year
          = (toOrdinal asOf - toOrdinal ⟨year, 1, 1⟩) + 1 ∧
      calculate_days_elapsed asOf year = dayOfYear asOf) ∧
    (asOf.year > year →
      calculate_days_elapsed asOf year
          = (if year % 4 = 0 ∧ (year % 100 ≠ 0 ∨ year % 400 = 0)
             then 366 else 365) ∧
      calculate_days_elapsed asOf year = daysInYear year) ∧
    (asOf.year < year → calculate_days_elapsed asOf year = 0) := by
  refine ⟨fun h => ⟨?_, elapsed_same_year hv h⟩,
    fun h => ⟨?_, elapsed_future_year h⟩, fun h => ?_⟩
  · unfold calculate_days_elapsed
    rw [if_pos h]
  · unfold calculate_days_elapsed
    rw [if_neg (by omega), if_pos h]
  · unfold calculate_days_elapsed
    rw [if_neg (by omega), if_neg (by omega)]

theorem calculate_days_elapsed_spec_witness :
    (PyDate.mk 2026 3 2).Valid ∧
    calculate_days_elapsed ⟨2026, 3, 2⟩ 2026 = dayOfYear ⟨2026, 3, 2⟩ ∧
    calculate_days_elapsed ⟨2026, 3, 2⟩ 2026 = 61 :=
  ⟨by decide,
   ((calculate_days_elapsed_spec ⟨2026, 3, 2⟩ 2026 (by decide)).1 rfl).2,
   by decide⟩

/-- C3: a record dated strictly after the as-of date contributes to
neither aggregate: removing it from its week leaves the result of
`fetch_contribution_days` unchanged, whatever its count and level. -/
theorem future_records_excluded (w1 w2 : List (List DayRecord))
    (l1 l2 : List DayRecord) (r : DayRecord) (asOf : PyDate)
    (h : PyDate.ltb asOf r.date = true) :
    fetch_contribution_days (w1 ++ (l1 ++ r :: l2) :: w2) asOf
      = fetch_contribution_days (w1 ++ (l1 ++ l2) :: w2) asOf := by
  rw [fetch_eq_spec, fetch_eq_spec]
  have hk : keep asOf r = false := by simp [keep, h]
  simp [activeCount, totalSum, List.flatten_append, List.flatten_cons,
    List.filter_append, List.filter_cons, hk]

theorem future_records_excluded_witness :
    PyDate.ltb ⟨2026, 1, 5⟩ ⟨2026, 1, 6⟩ = true ∧
    fetch_contribution_days
        [[⟨⟨2026, 1, 1⟩, 2, some "FIRST_QUARTILE"⟩,
          ⟨⟨2026, 1, 6⟩, 9, some "FIRST_QUARTILE"⟩]] ⟨2026, 1, 5⟩
      = fetch_contribution_days
          [[⟨⟨2026, 1, 1⟩, 2, some "FIRST_QUARTILE"⟩]] ⟨2026, 1, 5⟩ ∧
    fetch_contribution_days
        [[⟨⟨2026, 1, 1⟩, 2, some "FIRST_QUARTILE"⟩]] ⟨2026, 1, 5⟩ = (1, 2) :=
  ⟨by decide,
   future_records_excluded [] [] [⟨⟨2026, 1, 1⟩, 2, some "FIRST_QUARTILE"⟩] []
     ⟨⟨2026, 1, 6⟩, 9, some "FIRST_QUARTILE"⟩ ⟨2026, 1, 5⟩ (by decide),
   by decide⟩

/-- C4 counterexample: a non-future day with `count = 1` and no
categorical level is active under the claim's rule (`count > 0` OR a
present non-sentinel level) but is NOT counted by the code. -/
theorem count_only_day_not_active :
    claimActiveSpec ⟨⟨2026, 1, 10⟩, 1, none⟩ = true ∧
    (fetch_contribution_days
        [[⟨⟨2026, 1, 10⟩, 1, none⟩]] ⟨2026, 6, 1⟩).1 = 0 := by
  decide

/-- C4 (amended): a non-future day is counted active iff its categorical
level, defaulted to the sentinel when absent, differs from `"NONE"`; the
numeric count plays no role in the active-day decision. -/
theorem active_iff_level_not_none (weeks : List (List DayRecord)) (t : PyDate) :
    (fetch_contribution_days weeks t).1
        = (weeks.flatten.filter
            (fun r => keep t r && (levelOf r != "NONE"))).length ∧
    (∀ (l1 l2 : List DayRecord) (r : DayRecord) (c : Int),
      (fetch_contribution_days
          [l1 ++ { r with contributionCount := c } :: l2] t).1
        = (fetch_contribution_days [l1 ++ r :: l2] t).1) := by
  constructor
  · rw [fetch_eq_spec]
    rfl
  · intro l1 l2 r c
    rcases r with ⟨rd, rc, rl⟩
    rw [fetch_eq_spec, fetch_eq_spec]
    simp [activeCount, List.flatten_cons, List.filter_append, List.filter_cons,
      keep, isActiveRec, levelOf]
    split <;> simp

/-- C5: the consistency percentage always lies in the interval [0, 100]
when active days do not exceed elapsed days, and a zero elapsed-day
count yields exactly 0 with no division fault. -/
theorem consistency_bounds (a e : Nat) (h : a ≤ e) :
    0 ≤ consistencyQ a e ∧ consistencyQ a e ≤ 100 ∧
    (e = 0 → consistencyQ a e = 0) := by
  unfold consistencyQ
  by_cases he : 0 < e
  · rw [if_pos he]
    have he' : (0:ℚ) < e := by exact_mod_cast he
    have hae : (a:ℚ) ≤ e := by exact_mod_cast h
    have h1 : (a:ℚ) / e ≤ 1 := (div_le_one he').mpr hae
    refine ⟨by positivity, by nlinarith, fun h0 => absurd h0 (by omega)⟩
  · rw [if_neg he]
    exact ⟨le_refl 0, by norm_num, fun _ => rfl⟩

theorem consistency_bounds_witness :
    3 ≤ 4 ∧ (0 ≤ consistencyQ 3 4 ∧ consistencyQ 3 4 ≤ 100 ∧
      (4 = 0 → consistencyQ 3 4 = 0)) :=
  ⟨by decide, consistency_bounds 3 4 (by decide)⟩

/-- C6 counterexample: two active records dated in the previous year,
with the as-of date on Jan 1, give `activeDays = 2` against
`elapsedDays = 1`: the invariant fails for record sets containing
out-of-year dates. -/
theorem active_days_can_exceed_elapsed :
    (fetch_contribution_days
        [[⟨⟨2025, 12, 30⟩, 1, some "FIRST_QUARTILE"⟩,
          ⟨⟨2025, 12, 31⟩, 1, some "FIRST_QUARTILE"⟩]] ⟨2026, 1, 1⟩).1 = 2 ∧
    calculate_days_elapsed ⟨2026, 1, 1⟩ 2026 = 1 ∧
    ¬ ((fetch_contribution_days
        [[⟨⟨2025, 12, 30⟩, 1, some "FIRST_QUARTILE"⟩,
          ⟨⟨2025, 12, 31⟩, 1, some "FIRST_QUARTILE"⟩]] ⟨2026, 1, 1⟩).1
      ≤ calculate_days_elapsed ⟨2026, 1, 1⟩ 2026) := by
  decide

/-- C6 (amended): when every record's date is a valid calendar date in
the target year and record dates are pairwise distinct, the active-day
count never exceeds the elapsed-day count computed from the same as-of
date. -/
theorem active_le_elapsed_of_in_year (weeks : List (List DayRecord))
    (asOf : PyDate) (year : Nat)
    (hval : ∀ r ∈ weeks.flatten, r.date.Valid ∧ r.date.year = year)
    (hnd : (weeks.flatten.map (fun r => r.date)).Nodup)
    (hasOf : asOf.Valid) :
    (fetch_contribution_days weeks asOf).1
      ≤ calculate_days_elapsed asOf year := by
  rw [fetch_eq_spec]
  show activeCount weeks.flatten asOf ≤ _
  unfold activeCount
  have hKmem : ∀ r ∈ weeks.flatten.filter
      (fun r => keep asOf r && isActiveRec r),
      r ∈ weeks.flatten ∧ keep asOf r = true := by
    intro r hr
    have h' := List.mem_filter.mp hr
    refine ⟨h'.1, ?_⟩
    have h2 := h'.2
    simp only [Bool.and_eq_true] at h2
    exact h2.1
  have hndK : ((weeks.flatten.filter
      (fun r => keep asOf r && isActiveRec r)).map (fun r => r.date)).Nodup :=
    List.Nodup.sublist (List.Sublist.map _ (List.filter_sublist _)) hnd
  have hinjK : ∀ r ∈ weeks.flatten.filter
      (fun r => keep asOf r && isActiveRec r),
      ∀ s ∈ weeks.flatten.filter (fun r => keep asOf r && isActiveRec r),
      dayOfYear r.date = dayOfYear s.date → r.date = s.date := by
    intro r hr s hs hds
    have hry := hval r (hKmem r hr).1
    have hsy := hval s (hKmem s hs).1
    exact dayOfYear_inj hry.1 hsy.1 (by rw [hry.2, hsy.2]) hds
  rcases Nat.lt_trichotomy asOf.year year with hy | hy | hy
  · have hKnil : weeks.flatten.filter
        (fun r => keep asOf r && isActiveRec r) = [] := by
      rw [List.filter_eq_nil_iff]
      intro r hr
      have hry := (hval r hr).2
      have hltb : PyDate.ltb asOf r.date = true := by
        unfold PyDate.ltb
        exact decide_eq_true (Or.inl (by omega))
      simp [keep, hltb]
    rw [hKnil]
    simp
  · rw [elapsed_same_year hasOf hy]
    apply length_le_of_doy_bounds _ (dayOfYear asOf) ?_ hinjK hndK
    intro r hr
    obtain ⟨hrL, hkeep⟩ := hKmem r hr
    obtain ⟨hrv, hry⟩ := hval r hrL
    refine ⟨dayOfYear_pos hrv, ?_⟩
    have hfalse : PyDate.ltb asOf r.date = false := by
      revert hkeep
      unfold keep
      cases PyDate.ltb asOf r.date <;> simp
    have hnot := of_decide_eq_false hfalse
    exact dayOfYear_le hrv hasOf (by omega) (by omega)
  · rw [elapsed_future_year hy]
    apply length_le_of_doy_bounds _ (daysInYear year) ?_ hinjK hndK
    intro r hr
    obtain ⟨hrL, _⟩ := hKmem r hr
    obtain ⟨hrv, hry⟩ := hval r hrL
    exact ⟨dayOfYear_pos hrv, by rw [← hry]; exact dayOfYear_le_daysInYear hrv⟩

theorem active_le_elapsed_of_in_year_witness :
    (∀ r ∈ ([[⟨⟨2026, 1, 2⟩, 3, some "FIRST_QUARTILE"⟩]] :
        List (List DayRecord)).flatten, r.date.Valid ∧ r.date.year = 2026) ∧
    (([[⟨⟨2026, 1, 2⟩, 3, some "FIRST_QUARTILE"⟩]] :
        List (List DayRecord)).flatten.map (fun r => r.date)).Nodup ∧
    (PyDate.mk 2026 3 2).Valid ∧
    (fetch_contribution_days
        [[⟨⟨2026, 1, 2⟩, 3, some "FIRST_QUARTILE"⟩]] ⟨2026, 3, 2⟩).1
      ≤ calculate_days_elapsed ⟨2026, 3, 2⟩ 2026 :=
  ⟨by decide, by decide, by decide,
   active_le_elapsed_of_in_year _ _ _ (by decide) (by decide) (by decide)⟩

/-- C7 counterexample: a record with a negative count is accepted with
no failure of any kind; the aggregation simply returns the (negative)
total, so the claimed `InvalidInput` rejection does not exist. -/
theorem negative_count_accepted :
    fetch_contribution_days
        [[⟨⟨2026, 1, 1⟩, -5, some "NONE"⟩]] ⟨2026, 1, 2⟩ = (0, -5) := by
  decide

/-- C7 (amended): the aggregation core performs no input validation and
has no failure modes at all: on every input — any dates, negative
counts included — it returns the filtered count/sum pair, and a lone
non-future record's count of any sign is returned as the total
unchanged. -/
theorem aggregator_no_input_validation (weeks : List (List DayRecord))
    (t : PyDate) :
    fetch_contribution_days weeks t
        = (activeCount weeks.flatten t, totalSum weeks.flatten t) ∧
    (∀ c : Int,
      (fetch_contribution_days [[⟨⟨2026, 1, 1⟩, c, none⟩]] ⟨2026, 1, 2⟩).2
        = c) := by
  refine ⟨fetch_eq_spec weeks t, fun c => ?_⟩
  rw [fetch_eq_spec]
  have h : PyDate.ltb ⟨2026, 1, 2⟩ ⟨2026, 1, 1⟩ = false := by decide
  simp [totalSum, keep, h, List.flatten_cons]

/-- C8 counterexample: with 2 active days of 3 elapsed the consistency
is 200/3 ≈ 66.67; the code's label `int(consistency)` truncates to 66
while round-half-up gives 67, and the rendered SVG indeed carries
"66%". -/
theorem percent_label_truncated :
    pyInt (consistencyQ 2 3) = 66 ∧
    specRoundHalfUp (consistencyQ 2 3) = 67 ∧
    (∃ s1 s2 : String, generate_svg 2 0 3 2026 "ts" = s1 ++ "66%" ++ s2) := by
  have h1 : pyInt (consistencyQ 2 3) = 66 := by norm_num [pyInt, consistencyQ]
  have h2 : specRoundHalfUp (consistencyQ 2 3) = 67 := by
    norm_num [specRoundHalfUp, consistencyQ]
  refine ⟨h1, h2,
    ⟨svgChunk1 ++ Nat.repr radius ++ svgChunk2 ++ Nat.repr radius ++ svgChunk3
        ++ accent_color (consistencyQ 2 3) ++ svgChunk4
        ++ (fmt1 (progressQ (consistencyQ 2 3)) ++ " " ++ fmt1 circumferenceQ)
        ++ svgChunk5,
      svgChunk6 ++ Nat.repr 2026 ++ svgChunk7
        ++ (Nat.repr 2 ++ " / " ++ Nat.repr 3) ++ svgChunk8 ++ commaFmt 0
        ++ svgChunk9 ++ "ts" ++ svgChunk10, ?_⟩⟩
  simp only [generate_svg, h1, String.append_assoc]
  rfl

/-- C8 (amended): in the rendered markup the arc length and
circumference are formatted with exactly one digit after the decimal
point, the percentage label is the decimal rendering of the truncated
(toward zero, not half-up) consistency value, and the total-activity
count is rendered with thousands separators (removing the inserted
commas recovers the plain decimal rendering). -/
theorem generate_svg_formatting (a e : Nat) (t : Int) (y : Nat) (ts : String) :
    (∀ q : ℚ, ∃ (s : String) (d : Nat), d < 10 ∧ (Nat.repr d).length = 1 ∧
      fmt1 q = s ++ "." ++ Nat.repr d) ∧
    (∃ s1 s2 : String, generate_svg a t e y ts
        = s1 ++ (fmt1 (progressQ (consistencyQ a e)) ++ " "
            ++ fmt1 circumferenceQ) ++ s2) ∧
    (∃ s1 s2 : String, generate_svg a t e y ts
        = s1 ++ (Int.repr (pyInt (consistencyQ a e)) ++ "%") ++ s2) ∧
    (∃ s1 s2 : String, generate_svg a t e y ts = s1 ++ commaFmt t ++ s2) ∧
    (commaFmt t).data.filter (fun c => c != ',') = (plainDecimal t).data := by
  refine ⟨fun q => ?_, ?_, ?_, ?_, commaFmt_strip t⟩
  · exact ⟨(if q < 0 then "-" else "")
        ++ Nat.repr ((roundHalfEvenQ (10 * |q|)).toNat / 10),
      (roundHalfEvenQ (10 * |q|)).toNat % 10, Nat.mod_lt _ (by norm_num),
      natRepr_length_lt_ten _ (Nat.mod_lt _ (by norm_num)), fmt1_decomp q⟩
  · refine ⟨svgChunk1 ++ Nat.repr radius ++ svgChunk2 ++ Nat.repr radius
        ++ svgChunk3 ++ accent_color (consistencyQ a e) ++ svgChunk4,
      svgChunk5 ++ (Int.repr (pyInt (consistencyQ a e)) ++ "%") ++ svgChunk6
        ++ Nat.repr y ++ svgChunk7 ++ (Nat.repr a ++ " / " ++ Nat.repr e)
        ++ svgChunk8 ++ commaFmt t ++ svgChunk9 ++ ts ++ svgChunk10, ?_⟩
    simp only [generate_svg, String.append_assoc]
  · refine ⟨svgChunk1 ++ Nat.repr radius ++ svgChunk2 ++ Nat.repr radius
        ++ svgChunk3 ++ accent_color (consistencyQ a e) ++ svgChunk4
        ++ (fmt1 (progressQ (consistencyQ a e)) ++ " " ++ fmt1 circumferenceQ)
        ++ svgChunk5,
      svgChunk6 ++ Nat.repr y ++ svgChunk7
        ++ (Nat.repr a ++ " / " ++ Nat.repr e) ++ svgChunk8 ++ commaFmt t
        ++ svgChunk9 ++ ts ++ svgChunk10, ?_⟩
    simp only [generate_svg, String.append_assoc]
  · refine ⟨svgChunk1 ++ Nat.repr radius ++ svgChunk2 ++ Nat.repr radius
        ++ svgChunk3 ++ accent_color (consistencyQ a e) ++ svgChunk4
        ++ (fmt1 (progressQ (consistencyQ a e)) ++ " " ++ fmt1 circumferenceQ)
        ++ svgChunk5 ++ (Int.repr (pyInt (consistencyQ a e)) ++ "%")
        ++ svgChunk6 ++ Nat.repr y ++ svgChunk7
        ++ (Nat.repr a ++ " / " ++ Nat.repr e) ++ svgChunk8,
      svgChunk9 ++ ts ++ svgChunk10, ?_⟩
    simp only [generate_svg, String.append_assoc]

/-- C9: the renderer is deterministic: with the generation timestamp
held fixed as an explicit argument (the embedding of the single clock
read), identical arguments produce byte-identical markup. -/
theorem generate_svg_deterministic (a a' e e' : Nat) (t t' : Int)
    (y y' : Nat) (ts ts' : String) (h1 : a = a') (h2 : t = t') (h3 : e = e')
    (h4 : y = y') (h5 : ts = ts') :
    generate_svg a t e y ts = generate_svg a' t' e' y' ts' := by
  subst h1
  subst h2
  subst h3
  subst h4
  subst h5
  rfl

theorem generate_svg_deterministic_witness :
    generate_svg 25 100 31 2026 "Jan 31, 2026 00:00 UTC"
      = generate_svg 25 100 31 2026 "Jan 31, 2026 00:00 UTC" :=
  generate_svg_deterministic 25 25 31 31 100 100 2026 2026
    "Jan 31, 2026 00:00 UTC" "Jan 31, 2026 00:00 UTC" rfl rfl rfl rfl rfl

/-- C10: a non-future day's count is always added to the total, even
when its categorical level is the `"NONE"` sentinel (in which case the
active-day count is untouched); consequently some inputs yield a
positive total with zero active days. -/
theorem total_includes_none_level_counts :
    (∀ (t : PyDate) (r : DayRecord) (l1 l2 : List DayRecord),
      PyDate.ltb t r.date = false → levelOf r = "NONE" →
      fetch_contribution_days [l1 ++ r :: l2] t
        = ((fetch_contribution_days [l1 ++ l2] t).1,
           (fetch_contribution_days [l1 ++ l2] t).2 + r.contributionCount)) ∧
    (∃ (weeks : List (List DayRecord)) (t : PyDate),
      0 < (fetch_contribution_days weeks t).2 ∧
      (fetch_contribution_days weeks t).1 = 0) := by
  constructor
  · intro t r l1 l2 hf hlev
    rw [fetch_eq_spec, fetch_eq_spec]
    have hk : keep t r = true := by simp [keep, hf]
    have ha : isActiveRec r = false := by simp [isActiveRec, hlev]
    simp only [List.flatten_cons, List.flatten_nil, List.append_nil,
      activeCount, totalSum, List.filter_append, List.filter_cons, hk, ha,
      Bool.true_and, Bool.and_false, Bool.false_and, if_true, if_false,
      Bool.and_true]
    simp [Prod.ext_iff, List.sum_append]
    omega
  · exact ⟨[[⟨⟨2026, 1, 1⟩, 5, some "NONE"⟩]], ⟨2026, 1, 2⟩,
      by decide, by decide⟩

theorem total_includes_none_level_counts_witness :
    PyDate.ltb ⟨2026, 1, 2⟩ ⟨2026, 1, 1⟩ = false ∧
    levelOf ⟨⟨2026, 1, 1⟩, 5, some "NONE"⟩ = "NONE" ∧
    fetch_contribution_days [[⟨⟨2026, 1, 1⟩, 5, some "NONE"⟩]] ⟨2026, 1, 2⟩
      = ((fetch_contribution_days [[]] ⟨2026, 1, 2⟩).1,
         (fetch_contribution_days [[]] ⟨2026, 1, 2⟩).2 + 5) :=
  ⟨by decide, by decide,
   total_includes_none_level_counts.1 ⟨2026, 1, 2⟩
     ⟨⟨2026, 1, 1⟩, 5, some "NONE"⟩ [] [] (by decide) (by decide)⟩
